import Mathlib

set_option maxHeartbeats 1000000

/-!
Shallow embedding of the Quality Checking Engine of the
patent-disclosure-assistant extension (js/quality-checker.js).

JavaScript strings are modelled as Lean strings (sequences of Unicode
scalar values); the JS `length` property counts UTF-16 code units, which
is captured by `utf16Len`, and `trim` removes the ECMAScript whitespace
set, captured by `jsTrim`.  A possibly-missing string field of a
document record is an `Option String`; JS truthiness of such a value
(`undefined` and `""` are falsy) is `jsTruthy`.  The `keyFeatures`
field may hold any JS value; only "is an array, and of which length"
matters to the code, so it is modelled by `KeyFeaturesVal`.
-/

/-- ECMAScript WhiteSpace and LineTerminator code points,
as removed by `String.prototype.trim`. -/
def jsIsWhitespace (c : Char) : Bool :=
  c.toNat = 0x9 || c.toNat = 0xA || c.toNat = 0xB || c.toNat = 0xC ||
  c.toNat = 0xD || c.toNat = 0x20 || c.toNat = 0xA0 || c.toNat = 0x1680 ||
  (0x2000 ≤ c.toNat && c.toNat ≤ 0x200A) || c.toNat = 0x2028 ||
  c.toNat = 0x2029 || c.toNat = 0x202F || c.toNat = 0x205F ||
  c.toNat = 0x3000 || c.toNat = 0xFEFF

/-- JS `s.trim()`: drop leading and trailing ECMAScript whitespace. -/
def jsTrim (s : String) : String :=
  ⟨((s.data.dropWhile jsIsWhitespace).reverse.dropWhile jsIsWhitespace).reverse⟩

/-- JS `s.length`: the number of UTF-16 code units of the string
(code points at or above U+10000 take two units). -/
def utf16Len (s : String) : Nat :=
  s.data.foldl (fun n c => n + (if 0x10000 ≤ c.toNat then 2 else 1)) 0

/-- JS truthiness of a possibly-missing string field:
`undefined` and the empty string are falsy. -/
def jsTruthy : Option String → Bool
  | none => false
  | some s => s != ""

/-- The JS value stored in the `keyFeatures` field: missing,
present but not an array, or an array (of strings). -/
inductive KeyFeaturesVal where
  | absent
  | notArray
  | arr (xs : List String)
deriving Repr, DecidableEq

/-- The document record under evaluation: every text field may be
missing, `keyFeatures` may be missing or any JS value. -/
structure DocumentRecord where
  title : Option String := none
  technicalField : Option String := none
  inventor : Option String := none
  backgroundTechnology : Option String := none
  currentProblems : Option String := none
  technicalProblem : Option String := none
  technicalSolution : Option String := none
  keyFeatures : KeyFeaturesVal := KeyFeaturesVal.absent
  beneficialEffects : Option String := none
  performanceData : Option String := none
  embodimentDescription : Option String := none
  documentId : Option String := none
  date : Option String := none
deriving Repr, DecidableEq

/-- The record `{}` with no fields present. -/
def emptyRecord : DocumentRecord := {}

/-- Rule severities used by the registry. -/
inductive Severity where
  | error
  | warning
  | info
deriving Repr, DecidableEq

/-- Embedding of the JS predicate `data.f && data.f.trim().length > 0`. -/
def strPresentCheck (v : Option String) : Bool :=
  jsTruthy v && decide (0 < utf16Len (jsTrim (v.getD "")))

/-- Embedding of the JS predicate `data.f && data.f.trim().length >= n`. -/
def strMinLenCheck (v : Option String) (n : Nat) : Bool :=
  jsTruthy v && decide (n ≤ utf16Len (jsTrim (v.getD "")))

/-- Embedding of `Array.isArray(v) && v.length >= 3`. -/
def keyFeaturesCheck (v : KeyFeaturesVal) : Bool :=
  match v with
  | KeyFeaturesVal.arr xs => decide (3 ≤ xs.length)
  | _ => false

/-- A single rule of the registry. -/
structure Rule where
  id : String
  name : String
  description : String
  check : DocumentRecord → Bool
  severity : Severity
  suggestion : String

def titleRule : Rule :=
  { id := "title", name := "文档标题", description := "文档标题是否填写且有意义",
    check := fun data => strPresentCheck data.title,
    severity := Severity.error, suggestion := "请填写文档标题" }

def technicalFieldRule : Rule :=
  { id := "technicalField", name := "技术领域", description := "技术领域是否明确具体",
    check := fun data => strMinLenCheck data.technicalField 10,
    severity := Severity.warning, suggestion := "技术领域描述应至少10个字符，并明确具体" }

def inventorRule : Rule :=
  { id := "inventor", name := "发明人", description := "发明人信息是否完整",
    check := fun data => strPresentCheck data.inventor,
    severity := Severity.error, suggestion := "请填写发明人姓名" }

def backgroundTechnologyRule : Rule :=
  { id := "backgroundTechnology", name := "背景技术描述", description := "背景技术描述是否详细",
    check := fun data => strMinLenCheck data.backgroundTechnology 50,
    severity := Severity.warning, suggestion := "背景技术描述应至少50个字符，详细说明现有技术状况" }

def currentProblemsRule : Rule :=
  { id := "currentProblems", name := "现有技术问题", description := "是否明确指出现有技术存在的问题",
    check := fun data => strMinLenCheck data.currentProblems 30,
    severity := Severity.error, suggestion := "请详细描述现有技术存在的问题，不少于30个字符" }

def technicalProblemRule : Rule :=
  { id := "technicalProblem", name := "技术问题", description := "要解决的技术问题是否明确",
    check := fun data => strMinLenCheck data.technicalProblem 20,
    severity := Severity.error, suggestion := "请明确描述要解决的技术问题，至少20个字符" }

def technicalSolutionRule : Rule :=
  { id := "technicalSolution", name := "技术方案", description := "技术方案是否详细可行",
    check := fun data => strMinLenCheck data.technicalSolution 100,
    severity := Severity.error, suggestion := "技术方案描述应详细可行，至少100个字符" }

def keyFeaturesRule : Rule :=
  { id := "keyFeatures", name := "关键技术特征", description := "是否列出了关键技术特征",
    check := fun data => keyFeaturesCheck data.keyFeatures,
    severity := Severity.warning, suggestion := "建议列出至少3个关键技术特征" }

def beneficialEffectsRule : Rule :=
  { id := "beneficialEffects", name := "有益效果", description := "是否说明了有益效果",
    check := fun data => strMinLenCheck data.beneficialEffects 30,
    severity := Severity.error, suggestion := "请详细描述有益效果，至少30个字符" }

def performanceDataRule : Rule :=
  { id := "performanceData", name := "性能数据", description := "是否有性能数据支持",
    check := fun data => strPresentCheck data.performanceData,
    severity := Severity.info, suggestion := "建议提供具体的性能数据以增强说服力" }

def embodimentDescriptionRule : Rule :=
  { id := "embodimentDescription", name := "具体实施方式", description := "实施方式是否描述清楚",
    check := fun data => strMinLenCheck data.embodimentDescription 50,
    severity := Severity.warning, suggestion := "具体实施方式应详细描述，至少50个字符" }

/-- The basicInfo category's rules, in registry order. -/
def basicInfoRules : List Rule := [titleRule, technicalFieldRule, inventorRule]

/-- The backgroundTech category's rules, in registry order. -/
def backgroundTechRules : List Rule := [backgroundTechnologyRule, currentProblemsRule]

/-- The technicalSolution category's rules, in registry order. -/
def technicalSolutionRules : List Rule :=
  [technicalProblemRule, technicalSolutionRule, keyFeaturesRule]

/-- The technicalEffects category's rules, in registry order. -/
def technicalEffectsRules : List Rule := [beneficialEffectsRule, performanceDataRule]

/-- The implementation category's rules, in registry order. -/
def implementationRules : List Rule := [embodimentDescriptionRule]

/-- The rule registry: categories in registry order, each with its
ordered rule list (QualityChecker.initCheckRules). -/
def initCheckRules : List (String × List Rule) :=
  [("basicInfo", basicInfoRules),
   ("backgroundTech", backgroundTechRules),
   ("technicalSolution", technicalSolutionRules),
   ("technicalEffects", technicalEffectsRules),
   ("implementation", implementationRules)]

/-- All rules of the registry, in category-then-rule order. -/
def allRules : List Rule := (initCheckRules.map Prod.snd).flatten

/-- The per-rule result record built by checkCategory. -/
structure CheckResult where
  id : String
  name : String
  description : String
  passed : Bool
  severity : Severity
  suggestion : String
deriving Repr, DecidableEq

/-- The CheckResult the engine builds for one rule on one record. -/
def ruleResult (data : DocumentRecord) (rule : Rule) : CheckResult :=
  { id := rule.id, name := rule.name, description := rule.description,
    passed := rule.check data, severity := rule.severity,
    suggestion := rule.suggestion }

/-- Per-category aggregation result. -/
structure CategoryResult where
  total : Nat
  passed : Nat
  errors : List CheckResult
  warnings : List CheckResult
  suggestions : List CheckResult
deriving Repr, DecidableEq

/-- One iteration of the rules.forEach loop in checkCategory. -/
def checkCategoryStep (data : DocumentRecord) (result : CategoryResult) (rule : Rule) :
    CategoryResult :=
  let isValid := rule.check data
  let cr := ruleResult data rule
  if isValid then
    { result with passed := result.passed + 1 }
  else if rule.severity = Severity.error then
    { result with errors := result.errors ++ [cr] }
  else if rule.severity = Severity.warning then
    { result with warnings := result.warnings ++ [cr] }
  else
    { result with suggestions := result.suggestions ++ [cr] }

/-- QualityChecker.checkCategory. -/
def checkCategory (data : DocumentRecord) (rules : List Rule) : CategoryResult :=
  rules.foldl (checkCategoryStep data)
    { total := rules.length, passed := 0, errors := [], warnings := [], suggestions := [] }

/-- The aggregate report. -/
structure CheckReport where
  overall : String
  score : Nat
  totalChecks : Nat
  passedChecks : Nat
  errors : List CheckResult
  warnings : List CheckResult
  suggestions : List CheckResult
  categories : List (String × CategoryResult)
deriving Repr, DecidableEq

/-- Math.round(num/den) for non-negative rationals:
nearest integer, halves rounded up (away from zero). -/
def roundHalfUp (num den : Nat) : Nat := (2 * num + den) / (2 * den)

/-- The category loop of checkDocument: fills categories and the
aggregate counters and buckets. -/
def aggregateChecks (data : DocumentRecord) : CheckReport :=
  initCheckRules.foldl
    (fun results p =>
      let categoryResults := checkCategory data p.2
      { results with
        categories := results.categories ++ [(p.1, categoryResults)],
        totalChecks := results.totalChecks + categoryResults.total,
        passedChecks := results.passedChecks + categoryResults.passed,
        errors := results.errors ++ categoryResults.errors,
        warnings := results.warnings ++ categoryResults.warnings,
        suggestions := results.suggestions ++ categoryResults.suggestions })
    { overall := "pass", score := 0, totalChecks := 0, passedChecks := 0,
      errors := [], warnings := [], suggestions := [], categories := [] }

/-- QualityChecker.checkDocument. -/
def checkDocument (data : DocumentRecord) : CheckReport :=
  let results := aggregateChecks data
  let score :=
    if 0 < results.totalChecks then
      roundHalfUp (results.passedChecks * 100) results.totalChecks
    else 0
  let overall :=
    if 0 < results.errors.length then "fail"
    else if 0 < results.warnings.length then "warning"
    else "pass"
  { results with score := score, overall := overall }

/-- QualityChecker.getStatusText. -/
def getStatusText (status : String) : String :=
  if status = "pass" then "✅ 通过"
  else if status = "warning" then "⚠️ 有警告"
  else if status = "fail" then "❌ 未通过"
  else status

/-- QualityChecker.getCategoryName. -/
def getCategoryName (category : String) : String :=
  if category = "basicInfo" then "基本信息"
  else if category = "backgroundTech" then "背景技术"
  else if category = "technicalSolution" then "技术方案"
  else if category = "technicalEffects" then "技术效果"
  else if category = "implementation" then "实施方式"
  else category

/-- The fixed opening of the report: title line and overall assessment. -/
def reportHeaderText (r : CheckReport) : String :=
  "# 质量检查报告\n\n" ++ "## 总体评估\n\n" ++
  "- **总分**: " ++ toString r.score ++ "/100\n" ++
  "- **状态**: " ++ getStatusText r.overall ++ "\n" ++
  "- **检查项目**: " ++ toString r.passedChecks ++ "/" ++ toString r.totalChecks ++ " 通过\n\n"

/-- The per-item bullet lines of an issue section. -/
def issueLines (items : List CheckResult) : String :=
  items.foldl (fun acc it => acc ++ "- **" ++ it.name ++ "**: " ++ it.suggestion ++ "\n") ""

/-- The errors section, appended only when errors is non-empty. -/
def errorsSection (r : CheckReport) : String :=
  if 0 < r.errors.length then
    "## ❌ 错误 (" ++ toString r.errors.length ++ ")\n\n" ++
    "以下问题需要立即修复：\n\n" ++ issueLines r.errors ++ "\n"
  else ""

/-- The warnings section, appended only when warnings is non-empty. -/
def warningsSection (r : CheckReport) : String :=
  if 0 < r.warnings.length then
    "## ⚠️ 警告 (" ++ toString r.warnings.length ++ ")\n\n" ++
    "以下问题建议修复：\n\n" ++ issueLines r.warnings ++ "\n"
  else ""

/-- The suggestions section, appended only when suggestions is non-empty. -/
def suggestionsSection (r : CheckReport) : String :=
  if 0 < r.suggestions.length then
    "## 💡 建议 (" ++ toString r.suggestions.length ++ ")\n\n" ++
    "以下改进建议供参考：\n\n" ++ issueLines r.suggestions ++ "\n"
  else ""

/-- The error-count line of a category block, empty when the count is 0. -/
def errCountLine (c : CategoryResult) : String :=
  if 0 < c.errors.length then "- 错误: " ++ toString c.errors.length ++ "\n" else ""

/-- The warning-count line of a category block, empty when the count is 0. -/
def warnCountLine (c : CategoryResult) : String :=
  if 0 < c.warnings.length then "- 警告: " ++ toString c.warnings.length ++ "\n" else ""

/-- The suggestion-count line of a category block, empty when the count is 0. -/
def suggCountLine (c : CategoryResult) : String :=
  if 0 < c.suggestions.length then "- 建议: " ++ toString c.suggestions.length ++ "\n" else ""

/-- One category block of the per-category detail. -/
def categoryBlock (p : String × CategoryResult) : String :=
  "### " ++ getCategoryName p.1 ++ "\n\n" ++
  "- 通过: " ++ toString p.2.passed ++ "/" ++ toString p.2.total ++ "\n" ++
  errCountLine p.2 ++ warnCountLine p.2 ++ suggCountLine p.2 ++
  "\n"

/-- The per-category detail loop. -/
def categoriesDetail (cats : List (String × CategoryResult)) : String :=
  cats.foldl (fun acc p => acc ++ categoryBlock p) ""

/-- QualityChecker.generateReport. -/
def generateReport (r : CheckReport) : String :=
  reportHeaderText r ++ errorsSection r ++ warningsSection r ++ suggestionsSection r ++
  "## 分类详情\n\n" ++ categoriesDetail r.categories

/-- One auto-fix suggestion: field tag, action tag, proposed value. -/
structure FixSuggestion where
  type : String
  action : String
  value : String
deriving Repr, DecidableEq

/-- JS `s.padStart(3, c)`. -/
def padStart3 (c : Char) (s : String) : String :=
  if s.length < 3 then ⟨List.replicate (3 - s.length) c⟩ ++ s else s

/-- QualityChecker.getAutoFixSuggestions.  The ambient time and random
source are passed explicitly: `localeDate` stands for
`new Date().toLocaleDateString()`, `year` for `new Date().getFullYear()`
and `rnd` for `Math.floor(Math.random() * 1000)`. -/
def getAutoFixSuggestions (data : DocumentRecord) (localeDate : String)
    (year rnd : Nat) : List FixSuggestion :=
  (if !jsTruthy data.title || utf16Len (jsTrim (data.title.getD "")) == 0 then
    [{ type := "title", action := "setTitle", value := "技术方案_" ++ localeDate }]
   else []) ++
  (if !jsTruthy data.documentId then
    [{ type := "documentId", action := "setDocumentId",
       value := "TD-" ++ toString year ++ "-" ++ padStart3 '0' (toString rnd) }]
   else []) ++
  (if !jsTruthy data.date then
    [{ type := "date", action := "setDate", value := localeDate }]
   else [])

/-- Names of the string-valued fields of a DocumentRecord. -/
inductive StrField where
  | title
  | technicalField
  | inventor
  | backgroundTechnology
  | currentProblems
  | technicalProblem
  | technicalSolution
  | beneficialEffects
  | performanceData
  | embodimentDescription
  | documentId
  | date
deriving Repr, DecidableEq

/-- The JS property name of a string field. -/
def strFieldName : StrField → String
  | StrField.title => "title"
  | StrField.technicalField => "technicalField"
  | StrField.inventor => "inventor"
  | StrField.backgroundTechnology => "backgroundTechnology"
  | StrField.currentProblems => "currentProblems"
  | StrField.technicalProblem => "technicalProblem"
  | StrField.technicalSolution => "technicalSolution"
  | StrField.beneficialEffects => "beneficialEffects"
  | StrField.performanceData => "performanceData"
  | StrField.embodimentDescription => "embodimentDescription"
  | StrField.documentId => "documentId"
  | StrField.date => "date"

/-- Read a string field of a record. -/
def getStrField (d : DocumentRecord) : StrField → Option String
  | StrField.title => d.title
  | StrField.technicalField => d.technicalField
  | StrField.inventor => d.inventor
  | StrField.backgroundTechnology => d.backgroundTechnology
  | StrField.currentProblems => d.currentProblems
  | StrField.technicalProblem => d.technicalProblem
  | StrField.technicalSolution => d.technicalSolution
  | StrField.beneficialEffects => d.beneficialEffects
  | StrField.performanceData => d.performanceData
  | StrField.embodimentDescription => d.embodimentDescription
  | StrField.documentId => d.documentId
  | StrField.date => d.date

/-- Replace one string field of a record, leaving all others intact. -/
def setStrField (d : DocumentRecord) : StrField → Option String → DocumentRecord
  | StrField.title, v => { d with title := v }
  | StrField.technicalField, v => { d with technicalField := v }
  | StrField.inventor, v => { d with inventor := v }
  | StrField.backgroundTechnology, v => { d with backgroundTechnology := v }
  | StrField.currentProblems, v => { d with currentProblems := v }
  | StrField.technicalProblem, v => { d with technicalProblem := v }
  | StrField.technicalSolution, v => { d with technicalSolution := v }
  | StrField.beneficialEffects, v => { d with beneficialEffects := v }
  | StrField.performanceData, v => { d with performanceData := v }
  | StrField.embodimentDescription, v => { d with embodimentDescription := v }
  | StrField.documentId, v => { d with documentId := v }
  | StrField.date, v => { d with date := v }

/-- A single-field update of a record: either one string field or the
keyFeatures field. -/
inductive FieldUpdate where
  | str (f : StrField) (v : Option String)
  | kf (v : KeyFeaturesVal)

/-- Apply a single-field update. -/
def applyUpdate (d : DocumentRecord) : FieldUpdate → DocumentRecord
  | FieldUpdate.str f v => setStrField d f v
  | FieldUpdate.kf v => { d with keyFeatures := v }

/-- The JS property name an update touches. -/
def updFieldName : FieldUpdate → String
  | FieldUpdate.str f _ => strFieldName f
  | FieldUpdate.kf _ => "keyFeatures"

/-- How good an updated value is for the rules that read it: trimmed
UTF-16 length for a string field, array length (0 for non-arrays) for
keyFeatures. -/
def updScore : FieldUpdate → Nat
  | FieldUpdate.str _ v => utf16Len (jsTrim (v.getD ""))
  | FieldUpdate.kf (KeyFeaturesVal.arr xs) => xs.length
  | FieldUpdate.kf _ => 0

/-- Rules of one category that pass on a record. -/
def passedCount (data : DocumentRecord) (rules : List Rule) : Nat :=
  (rules.filter (fun r => r.check data)).length

/-- The CheckResults of failing rules with the given severity, in rule
order. -/
def failedOfSev (data : DocumentRecord) (rules : List Rule) (sev : Severity) :
    List CheckResult :=
  (rules.filter (fun r => !r.check data && r.severity == sev)).map (ruleResult data)

/-- The CheckResults of failing rules whose severity is neither error
nor warning, in rule order. -/
def failedOthers (data : DocumentRecord) (rules : List Rule) : List CheckResult :=
  (rules.filter (fun r =>
    !r.check data && !(r.severity == Severity.error) && !(r.severity == Severity.warning))).map
    (ruleResult data)

/-- The array length a keyFeatures value offers to its rule
(non-arrays offer none). -/
def kfScore : KeyFeaturesVal → Nat
  | KeyFeaturesVal.arr xs => xs.length
  | _ => 0

/-- A record that satisfies every error-severity rule and no
warning- or info-severity rule. -/
def scenarioC : DocumentRecord :=
  { title := some "标题",
    inventor := some "发明人",
    currentProblems := some (String.mk (List.replicate 30 'a')),
    technicalProblem := some (String.mk (List.replicate 20 'a')),
    technicalSolution := some (String.mk (List.replicate 100 'a')),
    beneficialEffects := some (String.mk (List.replicate 30 'a')) }

/-- A record that satisfies all 11 rules. -/
def scenarioB : DocumentRecord :=
  { title := some "Widget",
    technicalField := some (String.mk (List.replicate 10 'f')),
    inventor := some "Jane Doe",
    backgroundTechnology := some (String.mk (List.replicate 50 'b')),
    currentProblems := some (String.mk (List.replicate 30 'c')),
    technicalProblem := some (String.mk (List.replicate 20 'p')),
    technicalSolution := some (String.mk (List.replicate 100 's')),
    keyFeatures := KeyFeaturesVal.arr ["f1", "f2", "f3"],
    beneficialEffects := some (String.mk (List.replicate 30 'e')),
    performanceData := some "10x",
    embodimentDescription := some (String.mk (List.replicate 50 'd')) }

/-- A string of 99 Unicode code points whose first code point is
U+1D11E (MUSICAL SYMBOL G CLEF), an astral-plane character that
occupies two UTF-16 code units, so its JS length is 100. -/
def astralStr : String := String.mk (Char.ofNat 0x1D11E :: List.replicate 98 'a')

/-- The raw JS value a rule predicate returns before any boolean
coercion: `&&` yields its first operand when that operand is falsy, so
a missing field yields `undefined` and an empty-string field yields
`""`; only otherwise does the length comparison yield a genuine
boolean. -/
inductive RawCheckVal where
  | undef
  | emptyStr
  | jsBool (b : Bool)
deriving Repr, DecidableEq

/-- JS truthiness of a raw predicate value. -/
def rawTruthy : RawCheckVal → Bool
  | RawCheckVal.undef => false
  | RawCheckVal.emptyStr => false
  | RawCheckVal.jsBool b => b

/-- The raw value of `data.f && data.f.trim().length >= n`. -/
def strMinLenRaw (v : Option String) (n : Nat) : RawCheckVal :=
  match v with
  | none => RawCheckVal.undef
  | some s =>
    if s = "" then RawCheckVal.emptyStr
    else RawCheckVal.jsBool (decide (n ≤ utf16Len (jsTrim s)))

/-- The raw value of `data.f && data.f.trim().length > 0`. -/
def strPresentRaw (v : Option String) : RawCheckVal :=
  match v with
  | none => RawCheckVal.undef
  | some s =>
    if s = "" then RawCheckVal.emptyStr
    else RawCheckVal.jsBool (decide (0 < utf16Len (jsTrim s)))

/-- The raw value of `Array.isArray(v) && v.length >= 3`:
`Array.isArray` already returns a boolean, so this value is always a
genuine boolean. -/
def keyFeaturesRaw (v : KeyFeaturesVal) : RawCheckVal :=
  match v with
  | KeyFeaturesVal.arr xs => RawCheckVal.jsBool (decide (3 ≤ xs.length))
  | _ => RawCheckVal.jsBool false

/-- The raw value `isValid = rule.check(data)` that checkCategory
stores verbatim into the CheckResult's passed field, per rule id. -/
def rawCheck (data : DocumentRecord) (ruleId : String) : RawCheckVal :=
  if ruleId = "title" then strPresentRaw data.title
  else if ruleId = "technicalField" then strMinLenRaw data.technicalField 10
  else if ruleId = "inventor" then strPresentRaw data.inventor
  else if ruleId = "backgroundTechnology" then strMinLenRaw data.backgroundTechnology 50
  else if ruleId = "currentProblems" then strMinLenRaw data.currentProblems 30
  else if ruleId = "technicalProblem" then strMinLenRaw data.technicalProblem 20
  else if ruleId = "technicalSolution" then strMinLenRaw data.technicalSolution 100
  else if ruleId = "keyFeatures" then keyFeaturesRaw data.keyFeatures
  else if ruleId = "beneficialEffects" then strMinLenRaw data.beneficialEffects 30
  else if ruleId = "performanceData" then strPresentRaw data.performanceData
  else if ruleId = "embodimentDescription" then strMinLenRaw data.embodimentDescription 50
  else RawCheckVal.undef

@[simp]
theorem info_beq_error : (Severity.info == Severity.error) = false := by rfl

@[simp]
theorem info_beq_warning : (Severity.info == Severity.warning) = false := by rfl

@[simp]
theorem warning_beq_error : (Severity.warning == Severity.error) = false := by rfl

@[simp]
theorem error_beq_warning : (Severity.error == Severity.warning) = false := by rfl

theorem checkCategory_foldl (data : DocumentRecord) (rules : List Rule) (acc : CategoryResult) :
    rules.foldl (checkCategoryStep data) acc =
      { total := acc.total,
        passed := acc.passed + passedCount data rules,
        errors := acc.errors ++ failedOfSev data rules Severity.error,
        warnings := acc.warnings ++ failedOfSev data rules Severity.warning,
        suggestions := acc.suggestions ++ failedOthers data rules } := by
  induction rules generalizing acc with
  | nil => simp [passedCount, failedOfSev, failedOthers]
  | cons r rs ih =>
    rw [List.foldl_cons, ih]
    cases hc : r.check data <;> cases hsev : r.severity <;>
      simp [checkCategoryStep, hc, hsev, passedCount, failedOfSev, failedOthers,
        List.filter_cons, List.append_assoc] <;> omega

theorem checkCategory_eq (data : DocumentRecord) (rules : List Rule) :
    checkCategory data rules =
      { total := rules.length,
        passed := passedCount data rules,
        errors := failedOfSev data rules Severity.error,
        warnings := failedOfSev data rules Severity.warning,
        suggestions := failedOthers data rules } := by
  rw [checkCategory, checkCategory_foldl]
  simp

theorem category_partition (data : DocumentRecord) (rules : List Rule) :
    passedCount data rules + (failedOfSev data rules Severity.error).length +
      (failedOfSev data rules Severity.warning).length +
      (failedOthers data rules).length = rules.length := by
  induction rules with
  | nil => simp [passedCount, failedOfSev, failedOthers]
  | cons r rs ih =>
    cases hc : r.check data <;> cases hsev : r.severity <;>
      simp only [passedCount, failedOfSev, failedOthers, List.filter_cons, hc, hsev,
        info_beq_error, info_beq_warning, warning_beq_error, error_beq_warning,
        Bool.not_true, Bool.not_false, Bool.false_and, Bool.true_and, Bool.and_false,
        Bool.and_true, beq_self_eq_true, beq_iff_eq, reduceCtorEq, decide_False,
        decide_True, if_true, if_false, List.map_cons, List.length_cons,
        cond_true, cond_false, ite_true, ite_false, Bool.and_self] at * <;>
      omega

theorem passedCount_append (data : DocumentRecord) (l1 l2 : List Rule) :
    passedCount data (l1 ++ l2) = passedCount data l1 + passedCount data l2 := by
  simp [passedCount, List.filter_append]

theorem failedOfSev_append (data : DocumentRecord) (l1 l2 : List Rule) (sev : Severity) :
    failedOfSev data (l1 ++ l2) sev =
      failedOfSev data l1 sev ++ failedOfSev data l2 sev := by
  simp [failedOfSev, List.filter_append]

theorem failedOthers_append (data : DocumentRecord) (l1 l2 : List Rule) :
    failedOthers data (l1 ++ l2) = failedOthers data l1 ++ failedOthers data l2 := by
  simp [failedOthers, List.filter_append]

theorem passedCount_nil (data : DocumentRecord) : passedCount data [] = 0 := by rfl

theorem failedOfSev_nil (data : DocumentRecord) (sev : Severity) :
    failedOfSev data [] sev = [] := by rfl

theorem failedOthers_nil (data : DocumentRecord) : failedOthers data [] = [] := by rfl

theorem allRules_append : allRules =
    basicInfoRules ++ (backgroundTechRules ++ (technicalSolutionRules ++
      (technicalEffectsRules ++ (implementationRules ++ [])))) := by
  rfl

theorem aggregateChecks_eq (data : DocumentRecord) :
    aggregateChecks data =
      { overall := "pass", score := 0, totalChecks := 11,
        passedChecks := passedCount data allRules,
        errors := failedOfSev data allRules Severity.error,
        warnings := failedOfSev data allRules Severity.warning,
        suggestions := failedOthers data allRules,
        categories := initCheckRules.map (fun p => (p.1, checkCategory data p.2)) } := by
  have hb1 : basicInfoRules.length = 3 := by rfl
  have hb2 : backgroundTechRules.length = 2 := by rfl
  have hb3 : technicalSolutionRules.length = 3 := by rfl
  have hb4 : technicalEffectsRules.length = 2 := by rfl
  have hb5 : implementationRules.length = 1 := by rfl
  rw [allRules_append]
  simp only [aggregateChecks, initCheckRules, List.foldl_cons, List.foldl_nil,
    checkCategory_eq, List.map_cons, List.map_nil, passedCount_append,
    failedOfSev_append, failedOthers_append, passedCount_nil, failedOfSev_nil,
    failedOthers_nil, hb1, hb2, hb3, hb4, hb5]
  simp [List.append_assoc]
  omega

theorem passedCount_le (data : DocumentRecord) (rules : List Rule) :
    passedCount data rules ≤ rules.length :=
  List.length_filter_le _ _

theorem checkDocument_eq (data : DocumentRecord) :
    checkDocument data =
      { overall :=
          if 0 < (failedOfSev data allRules Severity.error).length then "fail"
          else if 0 < (failedOfSev data allRules Severity.warning).length then "warning"
          else "pass",
        score := roundHalfUp (passedCount data allRules * 100) 11,
        totalChecks := 11,
        passedChecks := passedCount data allRules,
        errors := failedOfSev data allRules Severity.error,
        warnings := failedOfSev data allRules Severity.warning,
        suggestions := failedOthers data allRules,
        categories := initCheckRules.map (fun p => (p.1, checkCategory data p.2)) } := by
  simp only [checkDocument, aggregateChecks_eq]
  simp

/-- Claim C1: on the empty record the report is an overall "fail" with
score 0, 0 of 11 checks passed, and the errors list holds exactly the
six error-severity rules title, inventor, currentProblems,
technicalProblem, technicalSolution, beneficialEffects in
category-then-rule order. -/
theorem C1_empty_record_report :
    (checkDocument emptyRecord).overall = "fail" ∧
    (checkDocument emptyRecord).score = 0 ∧
    (checkDocument emptyRecord).passedChecks = 0 ∧
    (checkDocument emptyRecord).totalChecks = 11 ∧
    (checkDocument emptyRecord).errors.map CheckResult.id =
      ["title", "inventor", "currentProblems", "technicalProblem",
       "technicalSolution", "beneficialEffects"] ∧
    ((checkDocument emptyRecord).errors.all
       (fun e => e.severity == Severity.error)) = true := by
  exact ⟨rfl, rfl, rfl, rfl, rfl, rfl⟩

/-- Claim C2: overall is "fail" when the aggregated errors list is
non-empty, else "warning" when warnings is non-empty, else "pass";
suggestions play no part.  A record passing all six error rules while
failing warning rules gets overall "warning" with empty errors and
non-empty warnings. -/
theorem C2_overall_priority :
    (∀ data : DocumentRecord,
      (checkDocument data).overall =
        if (checkDocument data).errors ≠ [] then "fail"
        else if (checkDocument data).warnings ≠ [] then "warning"
        else "pass") ∧
    (checkDocument scenarioC).overall = "warning" ∧
    (checkDocument scenarioC).errors = [] ∧
    (checkDocument scenarioC).warnings ≠ [] := by
  refine ⟨fun data => ?_, rfl, rfl, ?_⟩
  · rw [checkDocument_eq]
    simp [List.length_pos]
  · intro h
    exact absurd (congrArg List.length h) (by decide)

/-- Claim C3: in every report category, passed plus the three bucket
sizes equals total, total is the category's fixed rule count, each
failing rule lands in exactly the bucket of its severity, and passing
rules appear in no bucket. -/
theorem C3_category_invariant (data : DocumentRecord) (cat : String)
    (res : CategoryResult) (h : (cat, res) ∈ (checkDocument data).categories) :
    res.passed + res.errors.length + res.warnings.length + res.suggestions.length
      = res.total ∧
    ∃ rules, (cat, rules) ∈ initCheckRules ∧ res.total = rules.length ∧
      res.passed = passedCount data rules ∧
      res.errors = failedOfSev data rules Severity.error ∧
      res.warnings = failedOfSev data rules Severity.warning ∧
      res.suggestions = failedOthers data rules := by
  rw [checkDocument_eq] at h
  obtain ⟨p, hp, heq⟩ := List.mem_map.mp h
  have h1 : p.1 = cat := congrArg Prod.fst heq
  have h2 : checkCategory data p.2 = res := congrArg Prod.snd heq
  subst h1
  subst h2
  rw [checkCategory_eq]
  refine ⟨?_, p.2, ?_, rfl, rfl, rfl, rfl, rfl⟩
  · exact category_partition data p.2
  · simpa using hp

/-- Witness for C3 at the empty record and the basicInfo category. -/
theorem C3_category_invariant_witness :
    (checkCategory emptyRecord basicInfoRules).passed +
      (checkCategory emptyRecord basicInfoRules).errors.length +
      (checkCategory emptyRecord basicInfoRules).warnings.length +
      (checkCategory emptyRecord basicInfoRules).suggestions.length =
      (checkCategory emptyRecord basicInfoRules).total ∧
    ∃ rules, ("basicInfo", rules) ∈ initCheckRules ∧
      (checkCategory emptyRecord basicInfoRules).total = rules.length ∧
      (checkCategory emptyRecord basicInfoRules).passed = passedCount emptyRecord rules ∧
      (checkCategory emptyRecord basicInfoRules).errors =
        failedOfSev emptyRecord rules Severity.error ∧
      (checkCategory emptyRecord basicInfoRules).warnings =
        failedOfSev emptyRecord rules Severity.warning ∧
      (checkCategory emptyRecord basicInfoRules).suggestions =
        failedOthers emptyRecord rules :=
  C3_category_invariant emptyRecord "basicInfo" (checkCategory emptyRecord basicInfoRules)
    (by
      rw [checkDocument_eq]
      show ("basicInfo", checkCategory emptyRecord basicInfoRules) ∈
        initCheckRules.map (fun p => (p.1, checkCategory emptyRecord p.2))
      simp only [initCheckRules, List.map_cons]
      exact List.mem_cons_self _ _)

/-- Claim C4: score is round(passedChecks / totalChecks * 100) when
totalChecks is positive and 0 otherwise, rounding to the nearest
integer with halves away from zero, so score lies in 0..100. -/
theorem C4_score_rounding (data : DocumentRecord) :
    ((checkDocument data).score =
      if 0 < (checkDocument data).totalChecks then
        roundHalfUp ((checkDocument data).passedChecks * 100) (checkDocument data).totalChecks
      else 0) ∧
    (checkDocument data).score ≤ 100 ∧
    2 * ((checkDocument data).passedChecks * 100) <
      2 * (checkDocument data).score * (checkDocument data).totalChecks +
        (checkDocument data).totalChecks ∧
    2 * (checkDocument data).score * (checkDocument data).totalChecks ≤
      2 * ((checkDocument data).passedChecks * 100) + (checkDocument data).totalChecks := by
  rw [checkDocument_eq]
  have hle : passedCount data allRules ≤ 11 := by
    have := passedCount_le data allRules
    simpa using this
  simp only [roundHalfUp]
  refine ⟨by norm_num, ?_, ?_, ?_⟩
  · have h1 : 2 * (passedCount data allRules * 100) + 11 ≤ 2211 := by omega
    have h2 := Nat.div_le_div_right (c := 2 * 11) h1
    simpa using h2.trans (by norm_num)
  · have hmod := Nat.mod_add_div (2 * (passedCount data allRules * 100) + 11) (2 * 11)
    have hlt : (2 * (passedCount data allRules * 100) + 11) % (2 * 11) < 2 * 11 :=
      Nat.mod_lt _ (by norm_num)
    omega
  · have := Nat.div_mul_le_self (2 * (passedCount data allRules * 100) + 11) (2 * 11)
    omega

theorem allRules_eq_list : allRules =
    [titleRule, technicalFieldRule, inventorRule, backgroundTechnologyRule,
     currentProblemsRule, technicalProblemRule, technicalSolutionRule, keyFeaturesRule,
     beneficialEffectsRule, performanceDataRule, embodimentDescriptionRule] := by
  rfl

theorem utf16Len_trim_empty : utf16Len (jsTrim "") = 0 := by rfl

theorem strMinLenCheck_eq (v : Option String) (n : Nat) (hn : 1 ≤ n) :
    strMinLenCheck v n = decide (n ≤ utf16Len (jsTrim (v.getD ""))) := by
  cases v with
  | none =>
    simp only [strMinLenCheck, jsTruthy, Bool.false_and, Option.getD_none,
      utf16Len_trim_empty]
    symm
    rw [decide_eq_false_iff_not]
    omega
  | some s =>
    by_cases hs : s = ""
    · subst hs
      have hb : ("" != "") = false := by rfl
      simp only [strMinLenCheck, jsTruthy, Option.getD_some, utf16Len_trim_empty, hb,
        Bool.false_and]
      symm
      rw [decide_eq_false_iff_not]
      omega
    · have ht : (s != "") = true := by simpa using hs
      simp only [strMinLenCheck, jsTruthy, Option.getD_some, ht, Bool.true_and]

theorem strPresentCheck_eq (v : Option String) :
    strPresentCheck v = decide (1 ≤ utf16Len (jsTrim (v.getD ""))) := by
  rw [show strPresentCheck v = strMinLenCheck v 1 from rfl]
  exact strMinLenCheck_eq v 1 (le_refl 1)

theorem strMinLenCheck_mono (v v' : Option String) (n : Nat) (hn : 1 ≤ n)
    (hs : utf16Len (jsTrim (v.getD "")) ≤ utf16Len (jsTrim (v'.getD "")))
    (h : strMinLenCheck v n = true) : strMinLenCheck v' n = true := by
  rw [strMinLenCheck_eq v n hn] at h
  rw [strMinLenCheck_eq v' n hn]
  simp only [decide_eq_true_eq] at h ⊢
  omega

theorem keyFeaturesCheck_eq (v : KeyFeaturesVal) :
    keyFeaturesCheck v = decide (3 ≤ kfScore v) := by
  cases v <;> rfl

/-- Claim C5 fails on the code as stated: the thresholds are not
measured in Unicode code points.  `astralStr` trims to itself, has 99
code points — one short of technicalSolution's threshold of 100 — yet
the rule passes, because the JS string length counts UTF-16 code units
and the astral first character counts twice. -/
theorem C5_code_point_counterexample :
    (jsTrim astralStr).length = 99 ∧
    technicalSolutionRule.check { emptyRecord with technicalSolution := some astralStr }
      = true := by
  exact ⟨rfl, rfl⟩

/-- Claim C5 (amended): every minimum-length rule is an inclusive
threshold on the trimmed field value measured in UTF-16 code units
(the JS string length), and a missing field behaves identically to the
empty string for every rule. -/
theorem C5_utf16_thresholds :
    (∀ (d : DocumentRecord) (v : Option String),
      (technicalFieldRule.check (setStrField d StrField.technicalField v) =
        decide (10 ≤ utf16Len (jsTrim (v.getD "")))) ∧
      (backgroundTechnologyRule.check (setStrField d StrField.backgroundTechnology v) =
        decide (50 ≤ utf16Len (jsTrim (v.getD "")))) ∧
      (currentProblemsRule.check (setStrField d StrField.currentProblems v) =
        decide (30 ≤ utf16Len (jsTrim (v.getD "")))) ∧
      (technicalProblemRule.check (setStrField d StrField.technicalProblem v) =
        decide (20 ≤ utf16Len (jsTrim (v.getD "")))) ∧
      (technicalSolutionRule.check (setStrField d StrField.technicalSolution v) =
        decide (100 ≤ utf16Len (jsTrim (v.getD "")))) ∧
      (beneficialEffectsRule.check (setStrField d StrField.beneficialEffects v) =
        decide (30 ≤ utf16Len (jsTrim (v.getD "")))) ∧
      (embodimentDescriptionRule.check (setStrField d StrField.embodimentDescription v) =
        decide (50 ≤ utf16Len (jsTrim (v.getD ""))))) ∧
    (∀ (d : DocumentRecord) (f : StrField) (r : Rule), r ∈ allRules →
      r.check (setStrField d f none) = r.check (setStrField d f (some ""))) ∧
    (∀ (d : DocumentRecord) (r : Rule), r ∈ allRules →
      r.check { d with keyFeatures := KeyFeaturesVal.absent } =
        r.check { d with keyFeatures := KeyFeaturesVal.notArray }) := by
  refine ⟨fun d v => ⟨?_, ?_, ?_, ?_, ?_, ?_, ?_⟩, ?_, ?_⟩
  · exact strMinLenCheck_eq v 10 (by norm_num)
  · exact strMinLenCheck_eq v 50 (by norm_num)
  · exact strMinLenCheck_eq v 30 (by norm_num)
  · exact strMinLenCheck_eq v 20 (by norm_num)
  · exact strMinLenCheck_eq v 100 (by norm_num)
  · exact strMinLenCheck_eq v 30 (by norm_num)
  · exact strMinLenCheck_eq v 50 (by norm_num)
  · intro d f r hr
    rw [allRules_eq_list] at hr
    simp only [List.mem_cons, List.not_mem_nil, or_false] at hr
    rcases hr with rfl | rfl | rfl | rfl | rfl | rfl | rfl | rfl | rfl | rfl | rfl <;>
      cases f <;> rfl
  · intro d r hr
    rw [allRules_eq_list] at hr
    simp only [List.mem_cons, List.not_mem_nil, or_false] at hr
    rcases hr with rfl | rfl | rfl | rfl | rfl | rfl | rfl | rfl | rfl | rfl | rfl <;> rfl

/-- Witness for the amended C5, at the title rule and the keyFeatures
rule on the empty record. -/
theorem C5_utf16_thresholds_witness :
    titleRule.check (setStrField emptyRecord StrField.title none) =
      titleRule.check (setStrField emptyRecord StrField.title (some "")) ∧
    keyFeaturesRule.check { emptyRecord with keyFeatures := KeyFeaturesVal.absent } =
      keyFeaturesRule.check { emptyRecord with keyFeatures := KeyFeaturesVal.notArray } :=
  ⟨C5_utf16_thresholds.2.1 emptyRecord StrField.title titleRule
      (by rw [allRules_eq_list]; exact List.mem_cons_self _ _),
   C5_utf16_thresholds.2.2 emptyRecord keyFeaturesRule
      (by rw [allRules_eq_list]; simp)⟩

/-- Claim C6: the engine is total on well-formed records: a non-array
keyFeatures value makes its rule fail instead of raising, an absent
string field makes every rule over it fail instead of raising, and the
full report (all 11 checks) is produced as data for every record. -/
theorem C6_totality (d : DocumentRecord) :
    ((d.keyFeatures = KeyFeaturesVal.absent ∨ d.keyFeatures = KeyFeaturesVal.notArray) →
      keyFeaturesRule.check d = false) ∧
    (∀ (f : StrField) (r : Rule), r ∈ allRules → r.id = strFieldName f →
      getStrField d f = none → r.check d = false) ∧
    (checkDocument d).totalChecks = 11 := by
  refine ⟨?_, ?_, ?_⟩
  · rintro (h | h) <;> (show keyFeaturesCheck d.keyFeatures = false) <;> rw [h] <;> rfl
  · intro f r hr hid hnone
    rw [allRules_eq_list] at hr
    simp only [List.mem_cons, List.not_mem_nil, or_false] at hr
    cases f <;> simp only [getStrField] at hnone <;>
      rcases hr with rfl | rfl | rfl | rfl | rfl | rfl | rfl | rfl | rfl | rfl | rfl <;>
      first
        | exact absurd hid (by decide)
        | simp [titleRule, technicalFieldRule, inventorRule, backgroundTechnologyRule,
            currentProblemsRule, technicalProblemRule, technicalSolutionRule,
            keyFeaturesRule, beneficialEffectsRule, performanceDataRule,
            embodimentDescriptionRule, strPresentCheck, strMinLenCheck, jsTruthy, hnone]
  · rw [checkDocument_eq]

/-- Witness for C6, at the empty record with a non-array keyFeatures
value and at the absent title field. -/
theorem C6_totality_witness :
    keyFeaturesRule.check { emptyRecord with keyFeatures := KeyFeaturesVal.notArray }
      = false ∧
    titleRule.check emptyRecord = false :=
  ⟨(C6_totality { emptyRecord with keyFeatures := KeyFeaturesVal.notArray }).1 (Or.inr rfl),
   (C6_totality emptyRecord).2.1 StrField.title titleRule
     (by rw [allRules_eq_list]; exact List.mem_cons_self _ _) rfl rfl⟩

theorem errorsSection_empty_iff (r : CheckReport) :
    errorsSection r = "" ↔ r.errors = [] := by
  unfold errorsSection
  by_cases h : 0 < r.errors.length
  · rw [if_pos h]
    constructor
    · intro heq
      have hlen := congrArg String.length heq
      simp only [String.length_append] at hlen
      have hpos : 0 < ("## ❌ 错误 (" : String).length := by decide
      have hz : ("" : String).length = 0 := by rfl
      omega
    · intro he
      exact absurd h (by simp [he])
  · rw [if_neg h]
    constructor
    · intro _
      exact List.length_eq_zero.mp (by omega)
    · intro _
      rfl

theorem warningsSection_empty_iff (r : CheckReport) :
    warningsSection r = "" ↔ r.warnings = [] := by
  unfold warningsSection
  by_cases h : 0 < r.warnings.length
  · rw [if_pos h]
    constructor
    · intro heq
      have hlen := congrArg String.length heq
      simp only [String.length_append] at hlen
      have hpos : 0 < ("## ⚠️ 警告 (" : String).length := by decide
      have hz : ("" : String).length = 0 := by rfl
      omega
    · intro he
      exact absurd h (by simp [he])
  · rw [if_neg h]
    constructor
    · intro _
      exact List.length_eq_zero.mp (by omega)
    · intro _
      rfl

theorem suggestionsSection_empty_iff (r : CheckReport) :
    suggestionsSection r = "" ↔ r.suggestions = [] := by
  unfold suggestionsSection
  by_cases h : 0 < r.suggestions.length
  · rw [if_pos h]
    constructor
    · intro heq
      have hlen := congrArg String.length heq
      simp only [String.length_append] at hlen
      have hpos : 0 < ("## 💡 建议 (" : String).length := by decide
      have hz : ("" : String).length = 0 := by rfl
      omega
    · intro he
      exact absurd h (by simp [he])
  · rw [if_neg h]
    constructor
    · intro _
      exact List.length_eq_zero.mp (by omega)
    · intro _
      rfl

theorem errCountLine_empty_iff (c : CategoryResult) :
    errCountLine c = "" ↔ c.errors.length = 0 := by
  unfold errCountLine
  by_cases h : 0 < c.errors.length
  · rw [if_pos h]
    constructor
    · intro heq
      have hlen := congrArg String.length heq
      simp only [String.length_append] at hlen
      have hpos : 0 < ("- 错误: " : String).length := by decide
      have hz : ("" : String).length = 0 := by rfl
      omega
    · omega
  · rw [if_neg h]
    exact ⟨fun _ => by omega, fun _ => rfl⟩

theorem warnCountLine_empty_iff (c : CategoryResult) :
    warnCountLine c = "" ↔ c.warnings.length = 0 := by
  unfold warnCountLine
  by_cases h : 0 < c.warnings.length
  · rw [if_pos h]
    constructor
    · intro heq
      have hlen := congrArg String.length heq
      simp only [String.length_append] at hlen
      have hpos : 0 < ("- 警告: " : String).length := by decide
      have hz : ("" : String).length = 0 := by rfl
      omega
    · omega
  · rw [if_neg h]
    exact ⟨fun _ => by omega, fun _ => rfl⟩

theorem suggCountLine_empty_iff (c : CategoryResult) :
    suggCountLine c = "" ↔ c.suggestions.length = 0 := by
  unfold suggCountLine
  by_cases h : 0 < c.suggestions.length
  · rw [if_pos h]
    constructor
    · intro heq
      have hlen := congrArg String.length heq
      simp only [String.length_append] at hlen
      have hpos : 0 < ("- 建议: " : String).length := by decide
      have hz : ("" : String).length = 0 := by rfl
      omega
    · omega
  · rw [if_neg h]
    exact ⟨fun _ => by omega, fun _ => rfl⟩

/-- Claim C7: the report text is the fixed header plus the three issue
sections plus the per-category detail; each issue section is empty
exactly when its list is empty; each per-category count line is empty
exactly when its count is zero; on the fully-passing scenario B all
three sections vanish while the overall block and all five category
blocks remain. -/
theorem C7_generateReport_sections :
    (∀ r : CheckReport, generateReport r =
      reportHeaderText r ++ errorsSection r ++ warningsSection r ++ suggestionsSection r ++
        "## 分类详情\n\n" ++ categoriesDetail r.categories) ∧
    (∀ r : CheckReport, errorsSection r = "" ↔ r.errors = []) ∧
    (∀ r : CheckReport, warningsSection r = "" ↔ r.warnings = []) ∧
    (∀ r : CheckReport, suggestionsSection r = "" ↔ r.suggestions = []) ∧
    (∀ c : CategoryResult,
      (errCountLine c = "" ↔ c.errors.length = 0) ∧
      (warnCountLine c = "" ↔ c.warnings.length = 0) ∧
      (suggCountLine c = "" ↔ c.suggestions.length = 0)) ∧
    ((checkDocument scenarioB).errors = [] ∧
     (checkDocument scenarioB).warnings = [] ∧
     (checkDocument scenarioB).suggestions = [] ∧
     errorsSection (checkDocument scenarioB) = "" ∧
     warningsSection (checkDocument scenarioB) = "" ∧
     suggestionsSection (checkDocument scenarioB) = "" ∧
     generateReport (checkDocument scenarioB) =
       reportHeaderText (checkDocument scenarioB) ++ "## 分类详情\n\n" ++
         categoriesDetail (checkDocument scenarioB).categories ∧
     (checkDocument scenarioB).categories.map Prod.fst =
       ["basicInfo", "backgroundTech", "technicalSolution", "technicalEffects",
        "implementation"]) := by
  refine ⟨fun r => rfl, errorsSection_empty_iff, warningsSection_empty_iff,
    suggestionsSection_empty_iff,
    fun c => ⟨errCountLine_empty_iff c, warnCountLine_empty_iff c, suggCountLine_empty_iff c⟩,
    rfl, rfl, rfl, rfl, rfl, rfl, ?_, rfl⟩
  show reportHeaderText (checkDocument scenarioB) ++ "" ++ "" ++ "" ++
      "## 分类详情\n\n" ++ categoriesDetail (checkDocument scenarioB).categories = _
  simp

theorem strMinLenRaw_truthy (v : Option String) (n : Nat) :
    rawTruthy (strMinLenRaw v n) = strMinLenCheck v n := by
  cases v with
  | none => rfl
  | some s =>
    by_cases hs : s = ""
    · subst hs
      rfl
    · simp [strMinLenRaw, strMinLenCheck, jsTruthy, rawTruthy, hs]

theorem strPresentRaw_truthy (v : Option String) :
    rawTruthy (strPresentRaw v) = strPresentCheck v := by
  cases v with
  | none => rfl
  | some s =>
    by_cases hs : s = ""
    · subst hs
      rfl
    · simp [strPresentRaw, strPresentCheck, jsTruthy, rawTruthy, hs]

theorem keyFeaturesRaw_truthy (v : KeyFeaturesVal) :
    rawTruthy (keyFeaturesRaw v) = keyFeaturesCheck v := by
  cases v <;> rfl

theorem keyFeaturesRaw_boolean (v : KeyFeaturesVal) :
    keyFeaturesRaw v = RawCheckVal.jsBool (keyFeaturesCheck v) := by
  cases v <;> rfl

theorem strMinLenRaw_some (s : String) (n : Nat) (hs : s ≠ "") :
    strMinLenRaw (some s) n = RawCheckVal.jsBool (strMinLenCheck (some s) n) := by
  simp [strMinLenRaw, strMinLenCheck, jsTruthy, hs]

theorem strPresentRaw_some (s : String) (hs : s ≠ "") :
    strPresentRaw (some s) = RawCheckVal.jsBool (strPresentCheck (some s)) := by
  simp [strPresentRaw, strPresentCheck, jsTruthy, hs]

/-- Claim C8 fails on the code as stated: `&&` returns its falsy first
operand, and checkCategory stores that raw value verbatim as passed.
On the empty record the title rule's predicate evaluates to undefined,
not the boolean false; with title present as the empty string it
evaluates to the empty string — in both cases the stored passed is not
a boolean even though the rule fails. -/
theorem C8_passed_not_boolean_counterexample :
    rawCheck emptyRecord titleRule.id = RawCheckVal.undef ∧
    rawCheck emptyRecord titleRule.id ≠ RawCheckVal.jsBool false ∧
    rawCheck emptyRecord titleRule.id ≠ RawCheckVal.jsBool true ∧
    rawCheck { emptyRecord with title := some "" } titleRule.id = RawCheckVal.emptyStr ∧
    titleRule.check emptyRecord = false := by
  refine ⟨rfl, ?_, ?_, rfl, rfl⟩ <;> decide

/-- Claim C8 (amended): the engine stores the predicate's raw return
value as passed.  That value is truthy exactly when the rule passes;
for a rule over a string field it is undefined when the field is
missing and the empty string when the field is the empty string —
not the boolean false — and a genuine boolean whenever the field is a
non-empty string; the keyFeatures predicate always yields a genuine
boolean.  The rule's id, name, description, severity and suggestion
are copied unchanged, and every stored CheckResult is that of a
failing rule. -/
theorem C8_checkresult_raw_value (data : DocumentRecord) :
    (∀ r : Rule, r ∈ allRules → rawTruthy (rawCheck data r.id) = r.check data) ∧
    (∀ (d2 : DocumentRecord) (f : StrField) (r : Rule), r ∈ allRules →
      r.id = strFieldName f →
      rawCheck (setStrField d2 f none) r.id = RawCheckVal.undef ∧
      rawCheck (setStrField d2 f (some "")) r.id = RawCheckVal.emptyStr ∧
      (∀ s : String, s ≠ "" →
        rawCheck (setStrField d2 f (some s)) r.id =
          RawCheckVal.jsBool (r.check (setStrField d2 f (some s))))) ∧
    (keyFeaturesRaw data.keyFeatures =
      RawCheckVal.jsBool (keyFeaturesRule.check data)) ∧
    (∀ r : Rule,
      (ruleResult data r).id = r.id ∧
      (ruleResult data r).name = r.name ∧
      (ruleResult data r).description = r.description ∧
      (ruleResult data r).severity = r.severity ∧
      (ruleResult data r).suggestion = r.suggestion ∧
      (ruleResult data r).passed = r.check data) ∧
    (∀ (rules : List Rule) (cr : CheckResult),
      cr ∈ (checkCategory data rules).errors ++ (checkCategory data rules).warnings ++
        (checkCategory data rules).suggestions →
      ∃ r, r ∈ rules ∧ cr = ruleResult data r ∧ r.check data = false) := by
  refine ⟨?_, ?_, keyFeaturesRaw_boolean data.keyFeatures,
    fun r => ⟨rfl, rfl, rfl, rfl, rfl, rfl⟩, ?_⟩
  · intro r hr
    rw [allRules_eq_list] at hr
    simp only [List.mem_cons, List.not_mem_nil, or_false] at hr
    rcases hr with rfl | rfl | rfl | rfl | rfl | rfl | rfl | rfl | rfl | rfl | rfl <;>
      first
        | exact strPresentRaw_truthy _
        | exact strMinLenRaw_truthy _ _
        | exact keyFeaturesRaw_truthy _
  · intro d2 f r hr hid
    rw [allRules_eq_list] at hr
    simp only [List.mem_cons, List.not_mem_nil, or_false] at hr
    rcases hr with rfl | rfl | rfl | rfl | rfl | rfl | rfl | rfl | rfl | rfl | rfl <;>
      cases f <;>
      first
        | exact absurd hid (by decide)
        | exact ⟨rfl, rfl, fun s hs => strPresentRaw_some s hs⟩
        | exact ⟨rfl, rfl, fun s hs => strMinLenRaw_some s 10 hs⟩
        | exact ⟨rfl, rfl, fun s hs => strMinLenRaw_some s 20 hs⟩
        | exact ⟨rfl, rfl, fun s hs => strMinLenRaw_some s 30 hs⟩
        | exact ⟨rfl, rfl, fun s hs => strMinLenRaw_some s 50 hs⟩
        | exact ⟨rfl, rfl, fun s hs => strMinLenRaw_some s 100 hs⟩
  intro rules cr h
  rw [checkCategory_eq] at h
  simp only [List.mem_append] at h
  rcases h with (h | h) | h
  · obtain ⟨r, hrf, hcr⟩ := List.mem_map.mp h
    have hf := List.mem_filter.mp hrf
    have hb := hf.2
    simp only [Bool.and_eq_true, Bool.not_eq_true'] at hb
    exact ⟨r, hf.1, hcr.symm, hb.1⟩
  · obtain ⟨r, hrf, hcr⟩ := List.mem_map.mp h
    have hf := List.mem_filter.mp hrf
    have hb := hf.2
    simp only [Bool.and_eq_true, Bool.not_eq_true'] at hb
    exact ⟨r, hf.1, hcr.symm, hb.1⟩
  · obtain ⟨r, hrf, hcr⟩ := List.mem_map.mp h
    have hf := List.mem_filter.mp hrf
    have hb := hf.2
    simp only [Bool.and_eq_true, Bool.not_eq_true'] at hb
    exact ⟨r, hf.1, hcr.symm, hb.1.1⟩

/-- Witness for the amended C8, at the title rule on the empty record:
coherence of the raw value with the pass/fail outcome, the undefined
raw value for the missing field, and the provenance of the stored
CheckResult. -/
theorem C8_checkresult_raw_value_witness :
    rawTruthy (rawCheck emptyRecord titleRule.id) = titleRule.check emptyRecord ∧
    rawCheck (setStrField emptyRecord StrField.title none) titleRule.id =
      RawCheckVal.undef ∧
    ∃ r, r ∈ basicInfoRules ∧ ruleResult emptyRecord titleRule = ruleResult emptyRecord r ∧
      r.check emptyRecord = false :=
  ⟨(C8_checkresult_raw_value emptyRecord).1 titleRule
      (by rw [allRules_eq_list]; exact List.mem_cons_self _ _),
   ((C8_checkresult_raw_value emptyRecord).2.1 emptyRecord StrField.title titleRule
      (by rw [allRules_eq_list]; exact List.mem_cons_self _ _) rfl).1,
   (C8_checkresult_raw_value emptyRecord).2.2.2.2 basicInfoRules
      (ruleResult emptyRecord titleRule) (by decide)⟩

theorem updScore_kf (v : KeyFeaturesVal) : updScore (FieldUpdate.kf v) = kfScore v := by
  cases v <;> rfl

theorem rule_locality (d : DocumentRecord) (u : FieldUpdate) (r : Rule)
    (hr : r ∈ allRules) (hne : r.id ≠ updFieldName u) :
    r.check (applyUpdate d u) = r.check d := by
  rw [allRules_eq_list] at hr
  simp only [List.mem_cons, List.not_mem_nil, or_false] at hr
  rcases u with ⟨f, v⟩ | v <;>
    rcases hr with rfl | rfl | rfl | rfl | rfl | rfl | rfl | rfl | rfl | rfl | rfl <;>
    first
      | (cases f <;> first | rfl | exact absurd rfl hne)
      | rfl
      | exact absurd rfl hne

/-- Claim C9: updating a single field of a record leaves every rule
over other fields with an identical pass/fail state, and when the
update does not shrink the field's measure (trimmed UTF-16 length, or
array length for keyFeatures) the rules naming that field can only move
from failing to passing or stay unchanged. -/
theorem C9_single_field_change (d : DocumentRecord) (u u' : FieldUpdate)
    (hf : updFieldName u = updFieldName u') (hs : updScore u ≤ updScore u')
    (r : Rule) (hr : r ∈ allRules) :
    (r.id ≠ updFieldName u →
      r.check (applyUpdate d u) = r.check d ∧ r.check (applyUpdate d u') = r.check d) ∧
    (r.id = updFieldName u →
      r.check (applyUpdate d u) = true → r.check (applyUpdate d u') = true) := by
  constructor
  · intro hne
    exact ⟨rule_locality d u r hr hne, rule_locality d u' r hr (hf ▸ hne)⟩
  · rw [allRules_eq_list] at hr
    simp only [List.mem_cons, List.not_mem_nil, or_false] at hr
    rcases u with ⟨f, v⟩ | v
    · rcases u' with ⟨g, v'⟩ | v'
      · have hfg : f = g := by
          have hf2 : strFieldName f = strFieldName g := hf
          revert hf2
          cases f <;> cases g <;> first | exact fun _ => rfl | exact fun h => absurd h (by decide)
        subst hfg
        intro hid hchk
        have hid2 : r.id = strFieldName f := hid
        rcases hr with rfl | rfl | rfl | rfl | rfl | rfl | rfl | rfl | rfl | rfl | rfl <;>
          cases f <;>
          first
            | exact absurd hid2 (by decide)
            | exact strMinLenCheck_mono v v' 1 (le_refl 1) hs hchk
            | exact strMinLenCheck_mono v v' 10 (by norm_num) hs hchk
            | exact strMinLenCheck_mono v v' 20 (by norm_num) hs hchk
            | exact strMinLenCheck_mono v v' 30 (by norm_num) hs hchk
            | exact strMinLenCheck_mono v v' 50 (by norm_num) hs hchk
            | exact strMinLenCheck_mono v v' 100 (by norm_num) hs hchk
      · have hf2 : strFieldName f = "keyFeatures" := hf
        exact absurd hf2 (by cases f <;> decide)
    · rcases u' with ⟨g, v'⟩ | v'
      · have hf2 : "keyFeatures" = strFieldName g := hf
        exact absurd hf2.symm (by cases g <;> decide)
      · intro hid hchk
        have hid2 : r.id = "keyFeatures" := hid
        rcases hr with rfl | rfl | rfl | rfl | rfl | rfl | rfl | rfl | rfl | rfl | rfl <;>
          first
            | exact absurd hid2 (by decide)
            | (have h1 : (3 : Nat) ≤ kfScore v := by
                 have hc : keyFeaturesCheck v = true := hchk
                 rw [keyFeaturesCheck_eq] at hc
                 exact of_decide_eq_true hc
               have h2 : (3 : Nat) ≤ kfScore v' := by
                 rw [updScore_kf, updScore_kf] at hs
                 omega
               show keyFeaturesCheck v' = true
               rw [keyFeaturesCheck_eq]
               exact decide_eq_true h2)

/-- Witness for C9: lengthening backgroundTechnology from 50 to 60
characters keeps its rule passing and leaves the title rule unchanged. -/
theorem C9_single_field_change_witness :
    (titleRule.check (applyUpdate emptyRecord (FieldUpdate.str
        StrField.backgroundTechnology (some (String.mk (List.replicate 50 'b'))))) =
      titleRule.check emptyRecord) ∧
    backgroundTechnologyRule.check (applyUpdate emptyRecord (FieldUpdate.str
        StrField.backgroundTechnology (some (String.mk (List.replicate 60 'b'))))) = true := by
  constructor
  · exact ((C9_single_field_change emptyRecord
      (FieldUpdate.str StrField.backgroundTechnology (some (String.mk (List.replicate 50 'b'))))
      (FieldUpdate.str StrField.backgroundTechnology (some (String.mk (List.replicate 60 'b'))))
      rfl (by decide) titleRule
      (by rw [allRules_eq_list]; exact List.mem_cons_self _ _)).1 (by decide)).1
  · exact (C9_single_field_change emptyRecord
      (FieldUpdate.str StrField.backgroundTechnology (some (String.mk (List.replicate 50 'b'))))
      (FieldUpdate.str StrField.backgroundTechnology (some (String.mk (List.replicate 60 'b'))))
      rfl (by decide) backgroundTechnologyRule
      (by rw [allRules_eq_list]; simp)).2 rfl (by decide)

/-- Claim C10 fails on the code as stated: a documentId that is present
in the record (with value the empty string, hence not absent) still
produces a documentId auto-fix suggestion. -/
theorem C10_absent_only_counterexample :
    ({ emptyRecord with title := some "T", documentId := some "", date := some "D"
       : DocumentRecord }.documentId ≠ none) ∧
    (getAutoFixSuggestions
        { emptyRecord with title := some "T", documentId := some "", date := some "D" }
        "2026/1/1" 2026 7).map FixSuggestion.type = ["documentId"] :=
  ⟨fun h => Option.noConfusion h, rfl⟩

/-- Claim C10 (amended): getAutoFixSuggestions proposes fixes only for
title, documentId and date — title when the field is missing, empty, or
blank after trimming, documentId and date when missing or empty — with
the described generated values, and the list has at most three
elements. -/
theorem C10_autofix_suggestions (data : DocumentRecord) (localeDate : String)
    (year rnd : Nat) :
    (getAutoFixSuggestions data localeDate year rnd).length ≤ 3 ∧
    (∀ s ∈ getAutoFixSuggestions data localeDate year rnd,
      s = { type := "title", action := "setTitle", value := "技术方案_" ++ localeDate } ∨
      s = { type := "documentId", action := "setDocumentId",
            value := "TD-" ++ toString year ++ "-" ++ padStart3 '0' (toString rnd) } ∨
      s = { type := "date", action := "setDate", value := localeDate }) ∧
    ((∃ s ∈ getAutoFixSuggestions data localeDate year rnd, s.type = "title") ↔
      (!jsTruthy data.title || (utf16Len (jsTrim (data.title.getD "")) == 0)) = true) ∧
    ((∃ s ∈ getAutoFixSuggestions data localeDate year rnd, s.type = "documentId") ↔
      jsTruthy data.documentId = false) ∧
    ((∃ s ∈ getAutoFixSuggestions data localeDate year rnd, s.type = "date") ↔
      jsTruthy data.date = false) := by
  cases h1 : (!jsTruthy data.title || (utf16Len (jsTrim (data.title.getD "")) == 0)) <;>
    cases h2 : jsTruthy data.documentId <;>
      cases h3 : jsTruthy data.date <;>
        simp [getAutoFixSuggestions, h1, h2, h3]

/-- Witness for the amended C10, at the empty record: all three fields
are missing, so all three suggestions are proposed. -/
theorem C10_autofix_suggestions_witness :
    (getAutoFixSuggestions emptyRecord "2026/1/1" 2026 7).length ≤ 3 ∧
    ((∃ s ∈ getAutoFixSuggestions emptyRecord "2026/1/1" 2026 7, s.type = "title") ↔
      (!jsTruthy emptyRecord.title ||
        (utf16Len (jsTrim (emptyRecord.title.getD "")) == 0)) = true) :=
  ⟨(C10_autofix_suggestions emptyRecord "2026/1/1" 2026 7).1,
   (C10_autofix_suggestions emptyRecord "2026/1/1" 2026 7).2.2.1⟩
